import Mathlib

/-!
# Verification of the heart-risk inference front-end

Shallow embedding of `src/app.py`: the asset loader (`load_assets`,
lines 93–101), the startup gate (lines 103–107), the one-hot feature
encoder (`raw_input` / `input_df`, lines 151–158) and the scorer
(lines 159–161), together with proofs of the spec's testable
properties.

Python dictionaries are modelled as association lists with unique
keys: insertion overwrites an existing key in place and otherwise
appends at the end, exactly the CPython `dict.update` semantics the
encoder relies on.  Numeric cell values are modelled as `ℚ` (the
encoder only stores and copies values, it never computes with them,
so rationals represent the slider/number-input values exactly).
-/

set_option autoImplicit false

namespace HeartRisk

/-- The `Sex` selectbox options (`src/app.py` line 129). -/
inductive Sex where
  | M
  | F
deriving DecidableEq, Fintype, Repr

/-- The category label used to build the one-hot column name `Sex_<cat>`. -/
def Sex.str : Sex → String
  | .M => "M"
  | .F => "F"

/-- The `Chest Pain Type` selectbox options (`src/app.py` line 130). -/
inductive ChestPainType where
  | ATA
  | NAP
  | TA
  | ASY
deriving DecidableEq, Fintype, Repr

/-- The category label used to build the column name `ChestPainType_<cat>`. -/
def ChestPainType.str : ChestPainType → String
  | .ATA => "ATA"
  | .NAP => "NAP"
  | .TA => "TA"
  | .ASY => "ASY"

/-- The `Resting ECG` selectbox options (`src/app.py` line 138). -/
inductive RestingECG where
  | Normal
  | ST
  | LVH
deriving DecidableEq, Fintype, Repr

/-- The category label used to build the column name `RestingECG_<cat>`. -/
def RestingECG.str : RestingECG → String
  | .Normal => "Normal"
  | .ST => "ST"
  | .LVH => "LVH"

/-- The `Exercise Angina` selectbox options (`src/app.py` line 140). -/
inductive ExerciseAngina where
  | N
  | Y
deriving DecidableEq, Fintype, Repr

/-- The category label used to build the column name `ExerciseAngina_<cat>`. -/
def ExerciseAngina.str : ExerciseAngina → String
  | .N => "N"
  | .Y => "Y"

/-- The `ST Slope` selectbox options (`src/app.py` line 143). -/
inductive STSlope where
  | Up
  | Flat
  | Down
deriving DecidableEq, Fintype, Repr

/-- The category label used to build the column name `ST_Slope_<cat>`. -/
def STSlope.str : STSlope → String
  | .Up => "Up"
  | .Flat => "Flat"
  | .Down => "Down"

/-- The eleven form fields of the input form (`src/app.py` lines 128–143). -/
structure FormInput where
  age : ℤ
  sex : Sex
  chest_pain : ChestPainType
  resting_bp : ℤ
  cholesterol : ℤ
  fasting_bs : ℤ
  resting_ecg : RestingECG
  max_hr : ℤ
  exercise_angina : ExerciseAngina
  oldpeak : ℚ
  st_slope : STSlope
deriving DecidableEq

/-- The widget ranges of `src/app.py` lines 128–143: age slider 18–100,
resting BP 80–200, cholesterol 100–600, fasting blood sugar selectbox
`{0, 1}`, max heart rate slider 60–220, oldpeak slider 0.0–6.2 with
step 0.1.  The oldpeak conditions are phrased on the rational's
reduced numerator and denominator (the denominator is positive, so
`num ≥ 0` is `oldpeak ≥ 0`, `num * 5 ≤ 31 * den` is `oldpeak ≤ 31/5
= 6.2`, and `den ∣ 10` says the value is a multiple of `1/10`). -/
def ValidInput (i : FormInput) : Prop :=
  18 ≤ i.age ∧ i.age ≤ 100 ∧
  80 ≤ i.resting_bp ∧ i.resting_bp ≤ 200 ∧
  100 ≤ i.cholesterol ∧ i.cholesterol ≤ 600 ∧
  (i.fasting_bs = 0 ∨ i.fasting_bs = 1) ∧
  60 ≤ i.max_hr ∧ i.max_hr ≤ 220 ∧
  0 ≤ i.oldpeak.num ∧ i.oldpeak.num * 5 ≤ 31 * (i.oldpeak.den : ℤ) ∧
  10 % i.oldpeak.den = 0

instance (i : FormInput) : Decidable (ValidInput i) := by
  unfold ValidInput
  infer_instance

/-- A Python dict from column names to numeric values, as an
association list with unique keys in insertion order. -/
abbrev Dict := List (String × ℚ)

/-- `d[k] = v` in Python: overwrite the first (in our usage: only)
entry with key `k` in place, otherwise append `(k, v)` at the end. -/
def dictSet : Dict → String → ℚ → Dict
  | [], k, v => [(k, v)]
  | p :: d, k, v => if p.1 = k then (k, v) :: d else p :: dictSet d k v

/-- `d[k]` in Python, as an `Option` (`none` = `KeyError`). -/
def dictGet : Dict → String → Option ℚ
  | [], _ => none
  | p :: d, k => if p.1 = k then some p.2 else dictGet d k

/-- `{col: 0 for col in expected_columns}` (`src/app.py` line 151). -/
def initDict (cols : List String) : Dict :=
  cols.foldl (fun d c => dictSet d c 0) []

/-- The eleven key/value pairs of the dict literal passed to
`raw_input.update` (`src/app.py` lines 152–156), in source order. -/
def updatePairs (i : FormInput) : List (String × ℚ) :=
  [("Age", (i.age : ℚ)),
   ("RestingBP", (i.resting_bp : ℚ)),
   ("Cholesterol", (i.cholesterol : ℚ)),
   ("FastingBS", (i.fasting_bs : ℚ)),
   ("MaxHR", (i.max_hr : ℚ)),
   ("Oldpeak", i.oldpeak),
   ("Sex_" ++ i.sex.str, 1),
   ("ChestPainType_" ++ i.chest_pain.str, 1),
   ("RestingECG_" ++ i.resting_ecg.str, 1),
   ("ExerciseAngina_" ++ i.exercise_angina.str, 1),
   ("ST_Slope_" ++ i.st_slope.str, 1)]

/-- `raw_input` after the `update` call (`src/app.py` lines 151–156):
zero-initialise one entry per expected column, then write the six
numeric fields and the five selected one-hot indicator keys. -/
def raw_input (i : FormInput) (expected_columns : List String) : Dict :=
  (updatePairs i).foldl (fun d p => dictSet d p.1 p.2) (initDict expected_columns)

/-- `pd.DataFrame([d])[cols]`: project the single-row table onto the
label list `cols`, in order; `none` models the `KeyError` raised when
a requested label is absent from the row. -/
def dfSelect (d : Dict) : List String → Option Dict
  | [] => some []
  | c :: cs =>
    match dictGet d c, dfSelect d cs with
    | some v, some df => some ((c, v) :: df)
    | _, _ => none

/-- `input_df = pd.DataFrame([raw_input])[expected_columns]`
(`src/app.py` line 158), a single row keyed by column label. -/
def input_df (i : FormInput) (expected_columns : List String) : Option Dict :=
  dfSelect (raw_input i expected_columns) expected_columns

/-! ## Asset loader and startup gate (`src/app.py` lines 93–107) -/

/-- A Python exception kind relevant to `load_assets`: the
`except FileNotFoundError` clause catches only the first kind. -/
inductive PyExc where
  | fileNotFound
  | other
deriving DecidableEq

/-- `joblib.load(path)` over an abstract read-only file system `fs`
mapping a filename to the deserialized object it holds, raising
`FileNotFoundError` when the file is absent. -/
def joblib_load {α : Type} (fs : String → Option α) (path : String) : Except PyExc α :=
  match fs path with
  | some a => .ok a
  | none => .error .fileNotFound

/-- The `try` body of `load_assets` (`src/app.py` lines 96–99): load
the three artifacts in order and return the triple. -/
def load_assets_body {α : Type} (fs : String → Option α) : Except PyExc (α × α × α) := do
  let model ← joblib_load fs "KNN_heart.pkl"
  let scaler ← joblib_load fs "scaler.pkl"
  let expected_columns ← joblib_load fs "columns.pkl"
  return (model, scaler, expected_columns)

/-- `load_assets` (`src/app.py` lines 93–101): run the `try` body;
`except FileNotFoundError` returns the sentinel `(None, None, None)`;
any other exception keeps propagating.  An `.ok` result is a normal
return, an `.error` is an exception escaping the function. -/
def load_assets {α : Type} (fs : String → Option α) :
    Except PyExc (Option α × Option α × Option α) :=
  match load_assets_body fs with
  | .ok (model, scaler, expected_columns) => .ok (some model, some scaler, some expected_columns)
  | .error .fileNotFound => .ok (none, none, none)
  | .error e => .error e

/-- What the top level does after unpacking `load_assets()`:
either halt with the blocking error, or go on to render the form. -/
inductive StartupOutcome where
  | haltedWithError
  | formShown
deriving DecidableEq

/-- Python truthiness of one unpacked asset: `None` is falsy, a loaded
object has the truthiness `t` gives it. -/
def pyTruthy {α : Type} (t : α → Bool) : Option α → Bool
  | none => false
  | some a => t a

/-- `if not all([model, scaler, expected_columns]): st.error(...); st.stop()`
(`src/app.py` lines 105–107): when any of the three is falsy, show the
blocking error and stop before any form or request handling runs. -/
def startup_gate {α : Type} (t : α → Bool)
    (assets : Option α × Option α × Option α) : StartupOutcome :=
  if pyTruthy t assets.1 && pyTruthy t assets.2.1 && pyTruthy t assets.2.2 then
    .formShown
  else
    .haltedWithError

/-- Modelled from the spec: the `@st.cache_data` decorator on
`load_assets` (`src/app.py` line 93) is Streamlit library code absent
from this repository; §4.1 of the spec states its contract — the
result is cached for the process lifetime and subsequent calls return
the same in-memory objects without re-reading disk.  `CacheState` is
the process-wide cache slot for the decorated function. -/
structure CacheState (β : Type) where
  cached : Option β

/-- Modelled from the spec: one call of the cached function — on a hit
return the stored object untouched, on a miss run the function, store
and return its result.  The `Bool` records whether this call ran the
body (read the disk). -/
def cached_call {β : Type} (f : Unit → β) (st : CacheState β) :
    β × CacheState β × Bool :=
  match st.cached with
  | some v => (v, st, false)
  | none => (f (), ⟨some (f ())⟩, true)

/-- `load_assets()` as actually invoked through the cache
(`src/app.py` line 103). -/
def cached_load_assets {α : Type} (fs : String → Option α)
    (st : CacheState (Except PyExc (Option α × Option α × Option α))) :
    Except PyExc (Option α × Option α × Option α) ×
      CacheState (Except PyExc (Option α × Option α × Option α)) × Bool :=
  cached_call (fun _ => load_assets fs) st

/-! ## Scorer (`src/app.py` lines 159–161) -/

/-- The deserialized classifier: `predict` and `predict_proba` take a
table of rows; their stated interface is `ClassifierIface` below. -/
structure Classifier where
  predict : List (List ℚ) → List ℤ
  predict_proba : List (List ℚ) → List (List ℚ)

/-- The deserialized scaler: `transform` maps a table to a table. -/
structure Scaler where
  transform : List (List ℚ) → List (List ℚ)

/-- The interface the spec states for the loaded classifier
(§6: `predict(row) -> label`, `predict_proba(row) -> [p0, p1]`):
one output per input row, labels in `{0, 1}`, and each probability
row a nonnegative pair summing to one. -/
def ClassifierIface (m : Classifier) : Prop :=
  (∀ rows, (m.predict rows).length = rows.length) ∧
  (∀ rows, ∀ l ∈ m.predict rows, l = 0 ∨ l = 1) ∧
  (∀ rows, (m.predict_proba rows).length = rows.length) ∧
  (∀ rows, ∀ pr ∈ m.predict_proba rows,
    ∃ p0 p1, pr = [p0, p1] ∧ 0 ≤ p0 ∧ 0 ≤ p1 ∧ p0 + p1 = 1)

/-- The interface the spec states for the loaded scaler
(§6: `transform(row) -> scaled_row`): one output row per input row. -/
def ScalerIface (sc : Scaler) : Prop :=
  ∀ rows, (sc.transform rows).length = rows.length

/-- Lines 159–161: `scaled_input = scaler.transform(input_df)`,
`prediction = model.predict(scaled_input)[0]`,
`probability = model.predict_proba(scaled_input)[0][1]`.
`none` models an `IndexError` escaping from the `[0]` / `[1]`
subscripts. -/
def score_request (m : Classifier) (sc : Scaler) (df : List (List ℚ)) :
    Option (ℤ × ℚ) :=
  let scaled_input := sc.transform df
  match (m.predict scaled_input)[0]?, (m.predict_proba scaled_input)[0]? with
  | some prediction, some prow =>
    match prow[1]? with
    | some probability => some (prediction, probability)
    | none => none
  | _, _ => none

/-- The whole per-request pipeline (`src/app.py` lines 151–161):
encode, project, then scale and score the single row of values in
expected-column order. -/
def run_request (m : Classifier) (sc : Scaler) (i : FormInput)
    (expected_columns : List String) : Option (ℤ × ℚ) :=
  match input_df i expected_columns with
  | some df => score_request m sc [df.map Prod.snd]
  | none => none

/-! ## Concrete instances used by witnesses -/

/-- The spec's §8 scenario input: age 40, sex M, chest pain ATA,
resting BP 120, cholesterol 200, fasting BS 0, resting ECG Normal,
max HR 150, exercise angina N, oldpeak 1.0, ST slope Up. -/
def i0 : FormInput :=
  { age := 40, sex := .M, chest_pain := .ATA, resting_bp := 120,
    cholesterol := 200, fasting_bs := 0, resting_ecg := .Normal,
    max_hr := 150, exercise_angina := .N, oldpeak := 1, st_slope := .Up }

/-- A full expected-columns artifact: the six numeric columns plus
every one-hot column of the five categorical fields. -/
def cols_full : List String :=
  ["Age", "RestingBP", "Cholesterol", "FastingBS", "MaxHR", "Oldpeak",
   "Sex_F", "Sex_M",
   "ChestPainType_ASY", "ChestPainType_ATA", "ChestPainType_NAP", "ChestPainType_TA",
   "RestingECG_LVH", "RestingECG_Normal", "RestingECG_ST",
   "ExerciseAngina_N", "ExerciseAngina_Y",
   "ST_Slope_Down", "ST_Slope_Flat", "ST_Slope_Up"]

/-- An expected-columns artifact missing the `Sex_M` indicator, as if
category `M` had been absent from the training data. -/
def cols_noSexM : List String :=
  ["Age", "RestingBP", "Cholesterol", "FastingBS", "MaxHR", "Oldpeak",
   "Sex_F",
   "ChestPainType_ASY", "ChestPainType_ATA", "ChestPainType_NAP", "ChestPainType_TA",
   "RestingECG_LVH", "RestingECG_Normal", "RestingECG_ST",
   "ExerciseAngina_N", "ExerciseAngina_Y",
   "ST_Slope_Down", "ST_Slope_Flat", "ST_Slope_Up"]

/-- The §8 scenario's expected cell values, column by column: the six
numeric fields, one for the five selected one-hot columns, zero for
every other expected column. -/
def scenarioVal (c : String) : ℚ :=
  if c = "ST_Slope_Up" then 1
  else if c = "ExerciseAngina_N" then 1
  else if c = "RestingECG_Normal" then 1
  else if c = "ChestPainType_ATA" then 1
  else if c = "Sex_M" then 1
  else if c = "Oldpeak" then 1
  else if c = "MaxHR" then 150
  else if c = "FastingBS" then 0
  else if c = "Cholesterol" then 200
  else if c = "RestingBP" then 120
  else if c = "Age" then 40
  else 0

/-- A trivial classifier satisfying `ClassifierIface`: label 0 and
probability row `[1, 0]` for every input row. -/
def trivialClassifier : Classifier :=
  { predict := fun rows => rows.map (fun _ => 0),
    predict_proba := fun rows => rows.map (fun _ => [1, 0]) }

/-- The identity scaler, satisfying `ScalerIface`. -/
def idScaler : Scaler := { transform := fun rows => rows }

/-- A file system with all three artifact files present. -/
def fs_all : String → Option Unit := fun _ => some ()

/-- A file system with every file absent. -/
def fs_none : String → Option Unit := fun _ => none

/-! ## Dictionary lemmas -/

theorem dictGet_dictSet (d : Dict) (k : String) (v : ℚ) (c : String) :
    dictGet (dictSet d k v) c = if c = k then some v else dictGet d c := by
  induction d with
  | nil =>
    by_cases h : c = k
    · simp [dictSet, dictGet, h]
    · simp [dictSet, dictGet, h, Ne.symm h]
  | cons p d ih =>
    by_cases hpk : p.1 = k
    · by_cases hck : c = k
      · simp [dictSet, dictGet, hpk, hck]
      · simp [dictSet, dictGet, hpk, hck, Ne.symm hck]
    · by_cases hpc : p.1 = c
      · have hck : ¬ c = k := fun h => hpk (hpc.trans h)
        simp [dictSet, dictGet, hpk, hpc, hck]
      · simp [dictSet, dictGet, hpk, hpc, ih]

theorem dictGet_initDict_aux (cols : List String) (d : Dict) (c : String) :
    dictGet (cols.foldl (fun d c => dictSet d c 0) d) c =
      if c ∈ cols then some 0 else dictGet d c := by
  induction cols generalizing d with
  | nil => simp
  | cons a cs ih =>
    simp only [List.foldl_cons]
    rw [ih]
    by_cases hcs : c ∈ cs
    · simp [hcs, List.mem_cons]
    · rw [dictGet_dictSet]
      by_cases hca : c = a <;> simp [hcs, hca, List.mem_cons]

theorem dictGet_initDict (cols : List String) (c : String) :
    dictGet (initDict cols) c = if c ∈ cols then some 0 else none := by
  simpa [initDict] using dictGet_initDict_aux cols [] c

set_option maxHeartbeats 1600000 in
/-- Looking up any column of `raw_input`: the eleven updated keys hold
their updated values (tested from the last update backwards; the
eleven keys are pairwise distinct for any fixed input, so the order
among them is immaterial), any other expected column holds its
initial `0`, and any other key is absent. -/
theorem raw_input_get (i : FormInput) (cols : List String) (c : String) :
    dictGet (raw_input i cols) c =
      if c = "ST_Slope_" ++ i.st_slope.str then some 1
      else if c = "ExerciseAngina_" ++ i.exercise_angina.str then some 1
      else if c = "RestingECG_" ++ i.resting_ecg.str then some 1
      else if c = "ChestPainType_" ++ i.chest_pain.str then some 1
      else if c = "Sex_" ++ i.sex.str then some 1
      else if c = "Oldpeak" then some i.oldpeak
      else if c = "MaxHR" then some (i.max_hr : ℚ)
      else if c = "FastingBS" then some (i.fasting_bs : ℚ)
      else if c = "Cholesterol" then some (i.cholesterol : ℚ)
      else if c = "RestingBP" then some (i.resting_bp : ℚ)
      else if c = "Age" then some (i.age : ℚ)
      else if c ∈ cols then some 0 else none := by
  simp only [raw_input, updatePairs, List.foldl_cons, List.foldl_nil]
  rw [dictGet_dictSet, dictGet_dictSet, dictGet_dictSet, dictGet_dictSet, dictGet_dictSet,
    dictGet_dictSet, dictGet_dictSet, dictGet_dictSet, dictGet_dictSet, dictGet_dictSet,
    dictGet_dictSet, dictGet_initDict]

theorem dictGet_foldlSet_isSome (ps : List (String × ℚ)) (d : Dict) (c : String)
    (h : (dictGet d c).isSome) :
    (dictGet (ps.foldl (fun d p => dictSet d p.1 p.2) d) c).isSome := by
  induction ps generalizing d with
  | nil => exact h
  | cons p ps ih =>
    simp only [List.foldl_cons]
    refine ih _ ?_
    rw [dictGet_dictSet]
    by_cases hck : c = p.1 <;> simp [hck, h]

theorem dictGet_raw_input_isSome (i : FormInput) (cols : List String) (c : String)
    (hc : c ∈ cols) : (dictGet (raw_input i cols) c).isSome := by
  refine dictGet_foldlSet_isSome _ _ _ ?_
  rw [dictGet_initDict, if_pos hc]
  rfl

/-- If every requested label is present in the row, the projection
succeeds, its column sequence is exactly the requested list, and each
cell holds the row's value for that label. -/
theorem dfSelect_spec (d : Dict) (cols : List String)
    (h : ∀ c ∈ cols, (dictGet d c).isSome) :
    ∃ df, dfSelect d cols = some df ∧ df.map Prod.fst = cols ∧
      ∀ c ∈ cols, dictGet df c = dictGet d c := by
  induction cols with
  | nil => exact ⟨[], rfl, rfl, by simp⟩
  | cons a cs ih =>
    obtain ⟨v, hv⟩ := Option.isSome_iff_exists.mp (h a (List.mem_cons_self a cs))
    obtain ⟨df, hdf, hmap, hget⟩ := ih (fun c hc => h c (List.mem_cons_of_mem a hc))
    refine ⟨(a, v) :: df, ?_, by simp [hmap], ?_⟩
    · simp [dfSelect, hv, hdf]
    · intro c hc
      rcases List.mem_cons.mp hc with hca | hcs
      · subst hca
        simp [dictGet, hv]
      · by_cases hac : a = c
        · subst hac
          simp [dictGet, hv]
        · simp [dictGet, hac, hget c hcs]

/-- The projection on line 158 always succeeds, its column sequence is
exactly `expected_columns`, and each cell holds `raw_input`'s value. -/
theorem input_df_spec (i : FormInput) (cols : List String) :
    ∃ df, input_df i cols = some df ∧ df.map Prod.fst = cols ∧
      ∀ c ∈ cols, dictGet df c = dictGet (raw_input i cols) c :=
  dfSelect_spec _ _ (fun c hc => dictGet_raw_input_isSome i cols c hc)

/-! ## Distinctness of the constructed column names

The eleven keys written by the `update` call are pairwise distinct
for every input; these finite facts are checked by `decide`. -/

theorem ne_slope_angina : ∀ (a : STSlope) (b : ExerciseAngina),
    ¬("ST_Slope_" ++ STSlope.str a = "ExerciseAngina_" ++ ExerciseAngina.str b) := by decide

theorem ne_slope_ecg : ∀ (a : STSlope) (b : RestingECG),
    ¬("ST_Slope_" ++ STSlope.str a = "RestingECG_" ++ RestingECG.str b) := by decide

theorem ne_slope_cp : ∀ (a : STSlope) (b : ChestPainType),
    ¬("ST_Slope_" ++ STSlope.str a = "ChestPainType_" ++ ChestPainType.str b) := by decide

theorem ne_slope_sex : ∀ (a : STSlope) (b : Sex),
    ¬("ST_Slope_" ++ STSlope.str a = "Sex_" ++ Sex.str b) := by decide

theorem ne_angina_ecg : ∀ (a : ExerciseAngina) (b : RestingECG),
    ¬("ExerciseAngina_" ++ ExerciseAngina.str a = "RestingECG_" ++ RestingECG.str b) := by decide

theorem ne_angina_cp : ∀ (a : ExerciseAngina) (b : ChestPainType),
    ¬("ExerciseAngina_" ++ ExerciseAngina.str a = "ChestPainType_" ++ ChestPainType.str b) := by
  decide

theorem ne_angina_sex : ∀ (a : ExerciseAngina) (b : Sex),
    ¬("ExerciseAngina_" ++ ExerciseAngina.str a = "Sex_" ++ Sex.str b) := by decide

theorem ne_ecg_cp : ∀ (a : RestingECG) (b : ChestPainType),
    ¬("RestingECG_" ++ RestingECG.str a = "ChestPainType_" ++ ChestPainType.str b) := by decide

theorem ne_ecg_sex : ∀ (a : RestingECG) (b : Sex),
    ¬("RestingECG_" ++ RestingECG.str a = "Sex_" ++ Sex.str b) := by decide

theorem ne_cp_sex : ∀ (a : ChestPainType) (b : Sex),
    ¬("ChestPainType_" ++ ChestPainType.str a = "Sex_" ++ Sex.str b) := by decide

theorem sex_key_ne_num : ∀ a : Sex,
    ¬("Sex_" ++ Sex.str a = "Oldpeak") ∧ ¬("Sex_" ++ Sex.str a = "MaxHR") ∧
    ¬("Sex_" ++ Sex.str a = "FastingBS") ∧ ¬("Sex_" ++ Sex.str a = "Cholesterol") ∧
    ¬("Sex_" ++ Sex.str a = "RestingBP") ∧ ¬("Sex_" ++ Sex.str a = "Age") := by decide

theorem cp_key_ne_num : ∀ a : ChestPainType,
    ¬("ChestPainType_" ++ ChestPainType.str a = "Oldpeak") ∧
    ¬("ChestPainType_" ++ ChestPainType.str a = "MaxHR") ∧
    ¬("ChestPainType_" ++ ChestPainType.str a = "FastingBS") ∧
    ¬("ChestPainType_" ++ ChestPainType.str a = "Cholesterol") ∧
    ¬("ChestPainType_" ++ ChestPainType.str a = "RestingBP") ∧
    ¬("ChestPainType_" ++ ChestPainType.str a = "Age") := by decide

theorem ecg_key_ne_num : ∀ a : RestingECG,
    ¬("RestingECG_" ++ RestingECG.str a = "Oldpeak") ∧
    ¬("RestingECG_" ++ RestingECG.str a = "MaxHR") ∧
    ¬("RestingECG_" ++ RestingECG.str a = "FastingBS") ∧
    ¬("RestingECG_" ++ RestingECG.str a = "Cholesterol") ∧
    ¬("RestingECG_" ++ RestingECG.str a = "RestingBP") ∧
    ¬("RestingECG_" ++ RestingECG.str a = "Age") := by decide

theorem angina_key_ne_num : ∀ a : ExerciseAngina,
    ¬("ExerciseAngina_" ++ ExerciseAngina.str a = "Oldpeak") ∧
    ¬("ExerciseAngina_" ++ ExerciseAngina.str a = "MaxHR") ∧
    ¬("ExerciseAngina_" ++ ExerciseAngina.str a = "FastingBS") ∧
    ¬("ExerciseAngina_" ++ ExerciseAngina.str a = "Cholesterol") ∧
    ¬("ExerciseAngina_" ++ ExerciseAngina.str a = "RestingBP") ∧
    ¬("ExerciseAngina_" ++ ExerciseAngina.str a = "Age") := by decide

theorem slope_key_ne_num : ∀ a : STSlope,
    ¬("ST_Slope_" ++ STSlope.str a = "Oldpeak") ∧
    ¬("ST_Slope_" ++ STSlope.str a = "MaxHR") ∧
    ¬("ST_Slope_" ++ STSlope.str a = "FastingBS") ∧
    ¬("ST_Slope_" ++ STSlope.str a = "Cholesterol") ∧
    ¬("ST_Slope_" ++ STSlope.str a = "RestingBP") ∧
    ¬("ST_Slope_" ++ STSlope.str a = "Age") := by decide

theorem sex_key_inj : ∀ a b : Sex,
    "Sex_" ++ Sex.str a = "Sex_" ++ Sex.str b → a = b := by decide

theorem cp_key_inj : ∀ a b : ChestPainType,
    "ChestPainType_" ++ ChestPainType.str a = "ChestPainType_" ++ ChestPainType.str b →
      a = b := by decide

theorem ecg_key_inj : ∀ a b : RestingECG,
    "RestingECG_" ++ RestingECG.str a = "RestingECG_" ++ RestingECG.str b → a = b := by decide

theorem angina_key_inj : ∀ a b : ExerciseAngina,
    "ExerciseAngina_" ++ ExerciseAngina.str a = "ExerciseAngina_" ++ ExerciseAngina.str b →
      a = b := by decide

theorem slope_key_inj : ∀ a b : STSlope,
    "ST_Slope_" ++ STSlope.str a = "ST_Slope_" ++ STSlope.str b → a = b := by decide

/-! ## Claim theorems -/

/-- C1: for every valid combination of the eleven form inputs, the
encoded single-row table passed to the scaler has exactly the
expected-columns sequence as its columns, in the same order, with no
extra and no missing columns. -/
theorem c1_input_df_columns_exact (i : FormInput) (cols : List String)
    (_hv : ValidInput i) :
    ∃ df, input_df i cols = some df ∧ df.map Prod.fst = cols := by
  obtain ⟨df, h1, h2, _⟩ := input_df_spec i cols
  exact ⟨df, h1, h2⟩

/-- Witness for C1: the §8 scenario input against the full column list. -/
theorem c1_witness :
    ValidInput i0 ∧
      ∃ df, input_df i0 cols_full = some df ∧ df.map Prod.fst = cols_full :=
  ⟨by decide, c1_input_df_columns_exact i0 cols_full (by decide)⟩

/-- C4: whenever any of the three artifact files is absent at load
time, `load_assets` returns the sentinel `(None, None, None)` as a
normal value, and no exception escapes from it. -/
theorem c4_missing_file_sentinel {α : Type} (fs : String → Option α)
    (h : fs "KNN_heart.pkl" = none ∨ fs "scaler.pkl" = none ∨ fs "columns.pkl" = none) :
    load_assets fs = .ok (none, none, none) := by
  rcases h with h | h | h
  · simp [load_assets, load_assets_body, joblib_load, h, Bind.bind, Except.bind,
      Functor.map, Except.map]
  · cases hm : fs "KNN_heart.pkl" <;>
      simp [load_assets, load_assets_body, joblib_load, h, hm, Bind.bind, Except.bind,
        Functor.map, Except.map]
  · cases hm : fs "KNN_heart.pkl" <;> cases hsc : fs "scaler.pkl" <;>
      simp [load_assets, load_assets_body, joblib_load, h, hm, hsc, Bind.bind, Except.bind,
        Functor.map, Except.map]

/-- Witness for C4: every file absent. -/
theorem c4_witness : load_assets fs_none = .ok (none, none, none) :=
  c4_missing_file_sentinel fs_none (Or.inl rfl)

/-- C5: if any one of the three loaded assets is the sentinel `None`,
the startup gate shows the blocking error and halts before any form
or request-handling logic runs — no partial or degraded UI. -/
theorem c5_sentinel_halts {α : Type} (t : α → Bool)
    (assets : Option α × Option α × Option α)
    (h : assets.1 = none ∨ assets.2.1 = none ∨ assets.2.2 = none) :
    startup_gate t assets = .haltedWithError := by
  obtain ⟨m, s, c⟩ := assets
  rcases h with h | h | h <;> simp_all [startup_gate, pyTruthy]

/-- Witness for C5: the model slot is the sentinel. -/
theorem c5_witness :
    startup_gate (fun _ : Unit => true) (none, some (), some ()) = .haltedWithError :=
  c5_sentinel_halts (fun _ : Unit => true) (none, some (), some ()) (Or.inl rfl)

/-- C6: for the valid §8 scenario input taken against an
expected-columns artifact missing `Sex_M`, encoding completes without
any error and the produced row has all of the sex field's indicator
columns equal to 0 — the selected indicator is silently omitted
rather than failing loudly. -/
theorem c6_silent_omission :
    ValidInput i0 ∧ "Sex_M" ∉ cols_noSexM ∧
      (input_df i0 cols_noSexM).isSome ∧
      dictGet ((input_df i0 cols_noSexM).getD []) "Sex_F" = some 0 ∧
      dictGet ((input_df i0 cols_noSexM).getD []) "Sex_M" = none := by
  refine ⟨by decide, by decide, by decide, by decide, by decide⟩

/-- C2: for every valid input, under the precondition that each of
the five constructed one-hot column names `<Prefix>_<Category>`
occurs in expected columns, the encoded row sets exactly one one-hot
column per categorical field to 1 and every sibling column of that
field that exists in expected columns to 0. -/
theorem c2_one_hot_exact (i : FormInput) (cols : List String) (_hv : ValidInput i)
    (hsex : "Sex_" ++ i.sex.str ∈ cols)
    (hcp : "ChestPainType_" ++ i.chest_pain.str ∈ cols)
    (hecg : "RestingECG_" ++ i.resting_ecg.str ∈ cols)
    (hang : "ExerciseAngina_" ++ i.exercise_angina.str ∈ cols)
    (hslope : "ST_Slope_" ++ i.st_slope.str ∈ cols) :
    ∃ df, input_df i cols = some df ∧
      (dictGet df ("Sex_" ++ i.sex.str) = some 1 ∧
        ∀ x : Sex, x ≠ i.sex → "Sex_" ++ x.str ∈ cols →
          dictGet df ("Sex_" ++ x.str) = some 0) ∧
      (dictGet df ("ChestPainType_" ++ i.chest_pain.str) = some 1 ∧
        ∀ x : ChestPainType, x ≠ i.chest_pain → "ChestPainType_" ++ x.str ∈ cols →
          dictGet df ("ChestPainType_" ++ x.str) = some 0) ∧
      (dictGet df ("RestingECG_" ++ i.resting_ecg.str) = some 1 ∧
        ∀ x : RestingECG, x ≠ i.resting_ecg → "RestingECG_" ++ x.str ∈ cols →
          dictGet df ("RestingECG_" ++ x.str) = some 0) ∧
      (dictGet df ("ExerciseAngina_" ++ i.exercise_angina.str) = some 1 ∧
        ∀ x : ExerciseAngina, x ≠ i.exercise_angina → "ExerciseAngina_" ++ x.str ∈ cols →
          dictGet df ("ExerciseAngina_" ++ x.str) = some 0) ∧
      (dictGet df ("ST_Slope_" ++ i.st_slope.str) = some 1 ∧
        ∀ x : STSlope, x ≠ i.st_slope → "ST_Slope_" ++ x.str ∈ cols →
          dictGet df ("ST_Slope_" ++ x.str) = some 0) := by
  obtain ⟨df, hdf, _, hget⟩ := input_df_spec i cols
  refine ⟨df, hdf, ⟨?_, ?_⟩, ⟨?_, ?_⟩, ⟨?_, ?_⟩, ⟨?_, ?_⟩, ⟨?_, ?_⟩⟩
  · rw [hget _ hsex, raw_input_get, if_neg (Ne.symm (ne_slope_sex i.st_slope i.sex)),
      if_neg (Ne.symm (ne_angina_sex i.exercise_angina i.sex)),
      if_neg (Ne.symm (ne_ecg_sex i.resting_ecg i.sex)),
      if_neg (Ne.symm (ne_cp_sex i.chest_pain i.sex)), if_pos rfl]
  · intro x hx hmem
    obtain ⟨n1, n2, n3, n4, n5, n6⟩ := sex_key_ne_num x
    rw [hget _ hmem, raw_input_get, if_neg (Ne.symm (ne_slope_sex i.st_slope x)),
      if_neg (Ne.symm (ne_angina_sex i.exercise_angina x)),
      if_neg (Ne.symm (ne_ecg_sex i.resting_ecg x)),
      if_neg (Ne.symm (ne_cp_sex i.chest_pain x)),
      if_neg (fun h => hx (sex_key_inj x i.sex h)),
      if_neg n1, if_neg n2, if_neg n3, if_neg n4, if_neg n5, if_neg n6, if_pos hmem]
  · rw [hget _ hcp, raw_input_get, if_neg (Ne.symm (ne_slope_cp i.st_slope i.chest_pain)),
      if_neg (Ne.symm (ne_angina_cp i.exercise_angina i.chest_pain)),
      if_neg (Ne.symm (ne_ecg_cp i.resting_ecg i.chest_pain)), if_pos rfl]
  · intro x hx hmem
    obtain ⟨n1, n2, n3, n4, n5, n6⟩ := cp_key_ne_num x
    rw [hget _ hmem, raw_input_get, if_neg (Ne.symm (ne_slope_cp i.st_slope x)),
      if_neg (Ne.symm (ne_angina_cp i.exercise_angina x)),
      if_neg (Ne.symm (ne_ecg_cp i.resting_ecg x)),
      if_neg (fun h => hx (cp_key_inj x i.chest_pain h)),
      if_neg (ne_cp_sex x i.sex),
      if_neg n1, if_neg n2, if_neg n3, if_neg n4, if_neg n5, if_neg n6, if_pos hmem]
  · rw [hget _ hecg, raw_input_get,
      if_neg (Ne.symm (ne_slope_ecg i.st_slope i.resting_ecg)),
      if_neg (Ne.symm (ne_angina_ecg i.exercise_angina i.resting_ecg)), if_pos rfl]
  · intro x hx hmem
    obtain ⟨n1, n2, n3, n4, n5, n6⟩ := ecg_key_ne_num x
    rw [hget _ hmem, raw_input_get, if_neg (Ne.symm (ne_slope_ecg i.st_slope x)),
      if_neg (Ne.symm (ne_angina_ecg i.exercise_angina x)),
      if_neg (fun h => hx (ecg_key_inj x i.resting_ecg h)),
      if_neg (ne_ecg_cp x i.chest_pain), if_neg (ne_ecg_sex x i.sex),
      if_neg n1, if_neg n2, if_neg n3, if_neg n4, if_neg n5, if_neg n6, if_pos hmem]
  · rw [hget _ hang, raw_input_get,
      if_neg (Ne.symm (ne_slope_angina i.st_slope i.exercise_angina)), if_pos rfl]
  · intro x hx hmem
    obtain ⟨n1, n2, n3, n4, n5, n6⟩ := angina_key_ne_num x
    rw [hget _ hmem, raw_input_get, if_neg (Ne.symm (ne_slope_angina i.st_slope x)),
      if_neg (fun h => hx (angina_key_inj x i.exercise_angina h)),
      if_neg (ne_angina_ecg x i.resting_ecg), if_neg (ne_angina_cp x i.chest_pain),
      if_neg (ne_angina_sex x i.sex),
      if_neg n1, if_neg n2, if_neg n3, if_neg n4, if_neg n5, if_neg n6, if_pos hmem]
  · rw [hget _ hslope, raw_input_get, if_pos rfl]
  · intro x hx hmem
    obtain ⟨n1, n2, n3, n4, n5, n6⟩ := slope_key_ne_num x
    rw [hget _ hmem, raw_input_get,
      if_neg (fun h => hx (slope_key_inj x i.st_slope h)),
      if_neg (ne_slope_angina x i.exercise_angina), if_neg (ne_slope_ecg x i.resting_ecg),
      if_neg (ne_slope_cp x i.chest_pain), if_neg (ne_slope_sex x i.sex),
      if_neg n1, if_neg n2, if_neg n3, if_neg n4, if_neg n5, if_neg n6, if_pos hmem]

/-- Witness for C2: the §8 scenario input against the full column
list, which contains every constructed one-hot column name. -/
theorem c2_witness :
    ∃ df, input_df i0 cols_full = some df ∧
      (dictGet df ("Sex_" ++ i0.sex.str) = some 1 ∧
        ∀ x : Sex, x ≠ i0.sex → "Sex_" ++ x.str ∈ cols_full →
          dictGet df ("Sex_" ++ x.str) = some 0) ∧
      (dictGet df ("ChestPainType_" ++ i0.chest_pain.str) = some 1 ∧
        ∀ x : ChestPainType, x ≠ i0.chest_pain → "ChestPainType_" ++ x.str ∈ cols_full →
          dictGet df ("ChestPainType_" ++ x.str) = some 0) ∧
      (dictGet df ("RestingECG_" ++ i0.resting_ecg.str) = some 1 ∧
        ∀ x : RestingECG, x ≠ i0.resting_ecg → "RestingECG_" ++ x.str ∈ cols_full →
          dictGet df ("RestingECG_" ++ x.str) = some 0) ∧
      (dictGet df ("ExerciseAngina_" ++ i0.exercise_angina.str) = some 1 ∧
        ∀ x : ExerciseAngina, x ≠ i0.exercise_angina → "ExerciseAngina_" ++ x.str ∈ cols_full →
          dictGet df ("ExerciseAngina_" ++ x.str) = some 0) ∧
      (dictGet df ("ST_Slope_" ++ i0.st_slope.str) = some 1 ∧
        ∀ x : STSlope, x ≠ i0.st_slope → "ST_Slope_" ++ x.str ∈ cols_full →
          dictGet df ("ST_Slope_" ++ x.str) = some 0) :=
  c2_one_hot_exact i0 cols_full (by decide) (by decide) (by decide) (by decide)
    (by decide) (by decide)

/-- C3: for the §8 scenario input (age 40, sex M, chest pain ATA,
resting BP 120, cholesterol 200, fasting BS 0, resting ECG Normal,
max HR 150, exercise angina N, oldpeak 1.0, ST slope Up), the encoder
produces a row with `Age=40`, `RestingBP=120`, `Cholesterol=200`,
`FastingBS=0`, `MaxHR=150`, `Oldpeak=1`, `Sex_M=1`,
`ChestPainType_ATA=1`, `RestingECG_Normal=1`, `ExerciseAngina_N=1`,
`ST_Slope_Up=1`, and every other expected column equal to 0. -/
theorem c3_scenario_row (cols : List String) :
    ∃ df, input_df i0 cols = some df ∧ df.map Prod.fst = cols ∧
      ∀ c ∈ cols, dictGet df c = some (scenarioVal c) := by
  obtain ⟨df, hdf, hmap, hget⟩ := input_df_spec i0 cols
  refine ⟨df, hdf, hmap, ?_⟩
  intro c hc
  rw [hget c hc, raw_input_get, if_pos hc]
  simp only [i0, Sex.str, ChestPainType.str, RestingECG.str, ExerciseAngina.str, STSlope.str]
  simp only [show "ST_Slope_" ++ "Up" = "ST_Slope_Up" from rfl,
    show "ExerciseAngina_" ++ "N" = "ExerciseAngina_N" from rfl,
    show "RestingECG_" ++ "Normal" = "RestingECG_Normal" from rfl,
    show "ChestPainType_" ++ "ATA" = "ChestPainType_ATA" from rfl,
    show "Sex_" ++ "M" = "Sex_M" from rfl, scenarioVal]
  push_cast
  simp only [apply_ite Option.some]

/-- Witness for C3: the scenario row against the full column list. -/
theorem c3_witness :
    ∃ df, input_df i0 cols_full = some df ∧ df.map Prod.fst = cols_full ∧
      ∀ c ∈ cols_full, dictGet df c = some (scenarioVal c) :=
  c3_scenario_row cols_full

/-- C7: under the hypothesis that the loaded classifier and scaler
satisfy their stated interfaces, the scorer returns a discrete label
in `{0, 1}` together with the probability assigned to label 1 — the
second entry of the model's `predict_proba` row — a value in
`[0, 1]`. -/
theorem c7_score_shape (m : Classifier) (sc : Scaler) (row : List ℚ)
    (hm : ClassifierIface m) (hs : ScalerIface sc) :
    ∃ prediction probability prow,
      score_request m sc [row] = some (prediction, probability) ∧
      (prediction = 0 ∨ prediction = 1) ∧
      0 ≤ probability ∧ probability ≤ 1 ∧
      (m.predict_proba (sc.transform [row]))[0]? = some prow ∧
      prow[1]? = some probability := by
  obtain ⟨hplen, hpval, hqlen, hqval⟩ := hm
  have hslen : (sc.transform [row]).length = 1 := by simpa using hs [row]
  have h1 : 0 < (m.predict (sc.transform [row])).length := by
    rw [hplen, hslen]
    norm_num
  have h2 : 0 < (m.predict_proba (sc.transform [row])).length := by
    rw [hqlen, hslen]
    norm_num
  have hl : (m.predict (sc.transform [row]))[0]? =
      some ((m.predict (sc.transform [row])).get ⟨0, h1⟩) := by
    rw [← List.get?_eq_getElem?, List.get?_eq_get]
  have hq : (m.predict_proba (sc.transform [row]))[0]? =
      some ((m.predict_proba (sc.transform [row])).get ⟨0, h2⟩) := by
    rw [← List.get?_eq_getElem?, List.get?_eq_get]
  obtain ⟨p0, p1, hpr, hp0, hp1, hsum⟩ :=
    hqval (sc.transform [row]) _
      (List.get_mem (m.predict_proba (sc.transform [row])) 0 h2)
  refine ⟨(m.predict (sc.transform [row])).get ⟨0, h1⟩, p1,
    (m.predict_proba (sc.transform [row])).get ⟨0, h2⟩, ?_,
    hpval _ _ (List.get_mem (m.predict (sc.transform [row])) 0 h1), hp1,
    by linarith, hq, ?_⟩
  · simp only [score_request, hl, hq, hpr]
    rfl
  · rw [hpr]
    rfl

/-- Witness for C7: the trivial classifier and the identity scaler on
a one-cell row. -/
theorem c7_witness :
    ∃ prediction probability prow,
      score_request trivialClassifier idScaler [[1]] = some (prediction, probability) ∧
      (prediction = 0 ∨ prediction = 1) ∧
      0 ≤ probability ∧ probability ≤ 1 ∧
      (trivialClassifier.predict_proba (idScaler.transform [[1]]))[0]? = some prow ∧
      prow[1]? = some probability :=
  c7_score_shape trivialClassifier idScaler [1]
    ⟨fun rows => by simp [trivialClassifier],
     fun rows l hl => by simp [trivialClassifier] at hl; simp [hl],
     fun rows => by simp [trivialClassifier],
     fun rows pr hpr => by
      simp [trivialClassifier] at hpr
      exact ⟨1, 0, by simp [hpr]⟩⟩
    (fun rows => by simp [idScaler])

/-- C8: encoding and scoring are deterministic — two runs on
identical values of the eleven input fields, with the same loaded
artifacts, produce an identical encoded row and therefore identical
prediction and probability. -/
theorem c8_deterministic (m : Classifier) (sc : Scaler) (cols : List String)
    (i1 i2 : FormInput) (h : i1 = i2) :
    input_df i1 cols = input_df i2 cols ∧
      run_request m sc i1 cols = run_request m sc i2 cols := by
  subst h
  exact ⟨rfl, rfl⟩

/-- Witness for C8 at the scenario input and trivial artifacts. -/
theorem c8_witness :
    input_df i0 cols_full = input_df i0 cols_full ∧
      run_request trivialClassifier idScaler i0 cols_full =
        run_request trivialClassifier idScaler i0 cols_full :=
  c8_deterministic trivialClassifier idScaler cols_full i0 i0 rfl

/-- C9: after the first invocation of the cached asset loader, every
subsequent call returns the same in-memory result from the cache
slot, with no disk read (spec-modelled cache semantics, §4.1). -/
theorem c9_cache_stable {α : Type} (fs : String → Option α)
    (st st2 : CacheState (Except PyExc (Option α × Option α × Option α)))
    (v : Except PyExc (Option α × Option α × Option α)) (b : Bool)
    (h : cached_load_assets fs st = (v, st2, b)) :
    cached_load_assets fs st2 = (v, st2, false) := by
  unfold cached_load_assets cached_call at h ⊢
  cases hst : st.cached with
  | some w =>
    rw [hst] at h
    simp only [Prod.mk.injEq] at h
    obtain ⟨h1, h2, h3⟩ := h
    subst h1
    subst h2
    rw [hst]
  | none =>
    rw [hst] at h
    simp only [Prod.mk.injEq] at h
    obtain ⟨h1, h2, h3⟩ := h
    subst h1
    subst h2
    rfl

/-- Witness for C9: a second call after a first call on an empty
cache slot. -/
theorem c9_witness :
    cached_load_assets fs_all (CacheState.mk (some (load_assets fs_all))) =
      (load_assets fs_all, CacheState.mk (some (load_assets fs_all)), false) :=
  c9_cache_stable fs_all (CacheState.mk none)
    (CacheState.mk (some (load_assets fs_all))) (load_assets fs_all) true rfl

/-- C10: for every choice of the eleven input values — including
categorical selections whose constructed one-hot column name is
absent from expected columns — the projection of the one-row table
onto expected columns never fails: the raw record starts with a zero
entry for every expected column, so no missing-key error is
reachable. -/
theorem c10_projection_never_fails (i : FormInput) (cols : List String) :
    (input_df i cols).isSome := by
  obtain ⟨df, h1, _, _⟩ := input_df_spec i cols
  rw [h1]
  rfl

end HeartRisk
